import Mathlib

/-!
Shallow embedding of the DAO governance swarm repository
(src/agents/coordination_agent.py, src/agents/voter_agent.py,
src/backend/main.py with src/backend/schema.py and src/backend/models.py).

Python floats are modelled by the rationals; Python dicts keyed by strings
are modelled by functions into Option; Python None is Option.none.
Mutation is modelled by explicit state passing: each method that mutates
the orchestrator, knowledge graph, or database returns the new state.
-/

namespace Coordination

/-- Payload dictionary stored in the AggregatedAnalysis slots by
complete_analysis_stage.  generate_final_recommendation reads the keys
compliance, risk_assessment.overall_risk, confidence, prediction,
risk_factors and safety_check.is_safe, each through a Python dict .get
with the default listed here; the embedding bakes those .get defaults in
as field defaults, so any concrete payload corresponds to one value of
this structure. -/
structure Dict where
  compliance : Bool := false
  overall_risk : String := "MEDIUM"
  confidence : ℚ := 0
  prediction : String := "Uncertain"
  risk_factors : List String := []
  is_safe : Bool := false
deriving DecidableEq

/-- WorkflowStatus model of coordination_agent.py. -/
structure WorkflowStatus where
  proposal_id : String
  current_stage : String
  analysis_complete : Bool := false
  sentiment_analysis_complete : Bool := false
  execution_plan_ready : Bool := false
  errors : List String := []
  warnings : List String := []
  progress_percentage : ℚ := 0
deriving DecidableEq

/-- ComprehensiveAnalysis model of coordination_agent.py; the timestamp
field is wall-clock presentation data and is not modelled. -/
structure ComprehensiveAnalysis where
  proposal_id : String
  proposal_analysis : Option Dict := none
  sentiment_prediction : Option Dict := none
  execution_plan : Option Dict := none
  final_recommendation : String
  confidence_score : ℚ
  risk_assessment : String
deriving DecidableEq

/-- The per-proposal pending_responses dictionary created by
start_workflow with the three fixed stage keys. -/
structure PendingResponses where
  proposal_analysis : Bool := false
  sentiment_analysis : Bool := false
  execution_planning : Bool := false
deriving DecidableEq

/-- ProposalSubmission model of coordination_agent.py. -/
structure ProposalSubmission where
  proposal_id : String
  title : String
  description : String
  requested_amount : ℚ
  token_type : String := "ETH"
  recipient_address : Option String := none
  submitter : String
  category : String := "funding"
deriving DecidableEq

/-- State of the WorkflowOrchestrator: its three string-keyed dicts. -/
structure WorkflowOrchestrator where
  workflows : String → Option WorkflowStatus
  analysis_results : String → Option ComprehensiveAnalysis
  pending_responses : String → Option PendingResponses

/-- Python dict assignment d[k] = v. -/
def setKey (m : String → Option α) (k : String) (v : α) : String → Option α :=
  fun q => if q = k then some v else m q

/-- In-place mutation of the value stored at key k, as in
self.analysis_results[pid].slot = data.  When the key is absent Python
raises KeyError; the claims only concern states where start_workflow has
populated all three dicts for the key, on which this total version agrees
with the code. -/
def mapKey (m : String → Option α) (k : String) (f : α → α) : String → Option α :=
  fun q => if q = k then (m k).map f else m q

/-- WorkflowOrchestrator.start_workflow: unconditionally installs a fresh
WorkflowStatus at stage proposal_analysis with progress 10, a fresh
ComprehensiveAnalysis placeholder and fresh pending flags, and returns the
status.  There is no check for an existing workflow with the same id. -/
def start_workflow (o : WorkflowOrchestrator) (p : ProposalSubmission) :
    WorkflowOrchestrator × WorkflowStatus :=
  let status : WorkflowStatus :=
    { proposal_id := p.proposal_id
      current_stage := "proposal_analysis"
      progress_percentage := 10 }
  ({ workflows := setKey o.workflows p.proposal_id status
     analysis_results := setKey o.analysis_results p.proposal_id
       { proposal_id := p.proposal_id
         final_recommendation := "Analysis in progress..."
         confidence_score := 0
         risk_assessment := "Unknown" }
     pending_responses := setKey o.pending_responses p.proposal_id
       { proposal_analysis := false
         sentiment_analysis := false
         execution_planning := false } },
   status)

/-- WorkflowOrchestrator.generate_final_recommendation: accumulates
confidence scores and risk factors from the three analysis slots exactly
in source order, takes the arithmetic mean (0 when no score contributed),
applies the ordered decision table, and writes the result back into the
stored ComprehensiveAnalysis. -/
def generate_final_recommendation (o : WorkflowOrchestrator) (proposal_id : String) :
    WorkflowOrchestrator :=
  match o.analysis_results proposal_id with
  | none => o
  | some analysis =>
    let sr1 : List ℚ × List String :=
      match analysis.proposal_analysis with
      | none => ([], [])
      | some d =>
        let sr := if d.compliance then ([(8 : ℚ)/10], ([] : List String))
                  else ([(2 : ℚ)/10], ["Compliance issues"])
        if d.overall_risk = "HIGH" then (sr.1, sr.2 ++ ["High financial risk"]) else sr
    let sr2 : List ℚ × List String :=
      match analysis.sentiment_prediction with
      | none => sr1
      | some d =>
        let r := if d.prediction = "Fail" then sr1.2 ++ ["Negative voter sentiment"] else sr1.2
        (sr1.1 ++ [d.confidence], r ++ d.risk_factors)
    let sr3 : List ℚ × List String :=
      match analysis.execution_plan with
      | none => sr2
      | some d =>
        if d.is_safe = false then
          (sr2.1 ++ [(3 : ℚ)/10], sr2.2 ++ ["Execution safety concerns"])
        else (sr2.1 ++ [(7 : ℚ)/10], sr2.2)
    let overall_confidence : ℚ :=
      if sr3.1.length = 0 then 0 else sr3.1.sum / sr3.1.length
    let rr : String × String :=
      if overall_confidence > 7/10 ∧ sr3.2.length = 0 then
        ("APPROVE - High confidence, low risk", "LOW")
      else if overall_confidence > 5/10 ∧ sr3.2.length ≤ 1 then
        ("APPROVE WITH CONDITIONS - Moderate confidence", "MEDIUM")
      else if overall_confidence > 3/10 then
        ("DEFER - Requires additional review", "MEDIUM")
      else
        ("REJECT - Low confidence or high risk", "HIGH")
    { o with
      analysis_results := setKey o.analysis_results proposal_id
        ({ analysis with
           final_recommendation := rr.1
           confidence_score := overall_confidence
           risk_assessment := rr.2 }) }

/-- WorkflowOrchestrator.complete_analysis_stage: no-op for unknown ids
and unrecognized stages; always stores success into the matching
completion flag; on success additionally bumps progress to the fixed
milestone, advances current_stage, records the payload into the matching
slot, marks the pending flag, and for execution_planning finally invokes
generate_final_recommendation.  There is no guard against re-processing a
stage that is already complete. -/
def complete_analysis_stage (o : WorkflowOrchestrator) (proposal_id stage : String)
    (success : Bool) (data : Dict) : WorkflowOrchestrator :=
  match o.workflows proposal_id with
  | none => o
  | some workflow =>
    if stage = "proposal_analysis" then
      if success then
        { o with
          workflows := setKey o.workflows proposal_id
            ({ workflow with
              analysis_complete := success
              progress_percentage := 40
              current_stage := "sentiment_analysis" })
          analysis_results := mapKey o.analysis_results proposal_id
            (fun a => { a with proposal_analysis := some data })
          pending_responses := mapKey o.pending_responses proposal_id
            (fun p => { p with proposal_analysis := true }) }
      else
        { o with
          workflows := setKey o.workflows proposal_id
            ({ workflow with analysis_complete := success }) }
    else if stage = "sentiment_analysis" then
      if success then
        { o with
          workflows := setKey o.workflows proposal_id
            ({ workflow with
              sentiment_analysis_complete := success
              progress_percentage := 70
              current_stage := "execution_planning" })
          analysis_results := mapKey o.analysis_results proposal_id
            (fun a => { a with sentiment_prediction := some data })
          pending_responses := mapKey o.pending_responses proposal_id
            (fun p => { p with sentiment_analysis := true }) }
      else
        { o with
          workflows := setKey o.workflows proposal_id
            ({ workflow with sentiment_analysis_complete := success }) }
    else if stage = "execution_planning" then
      if success then
        generate_final_recommendation
          { o with
            workflows := setKey o.workflows proposal_id
              ({ workflow with
                 execution_plan_ready := success
                 progress_percentage := 100
                 current_stage := "completed" })
            analysis_results := mapKey o.analysis_results proposal_id
              (fun a => { a with execution_plan := some data })
            pending_responses := mapKey o.pending_responses proposal_id
              (fun p => { p with execution_planning := true }) }
          proposal_id
      else
        { o with
          workflows := setKey o.workflows proposal_id
            ({ workflow with execution_plan_ready := success }) }
    else o

/-- Pure core of the StatusRequest handler handle_status_request: the
stored ComprehensiveAnalysis when the id is known, otherwise the
placeholder reply with confidence 0 and risk Unknown. -/
def handle_status_request (o : WorkflowOrchestrator) (proposal_id : String) :
    ComprehensiveAnalysis :=
  match o.analysis_results proposal_id with
  | some analysis => analysis
  | none =>
    { proposal_id := proposal_id
      final_recommendation := "Analysis not yet available"
      confidence_score := 0
      risk_assessment := "Unknown" }

/-- One complete_analysis_stage event, for reasoning about event
sequences delivered to the orchestrator. -/
structure StageOp where
  proposal_id : String
  stage : String
  success : Bool
  data : Dict

/-- Runs a list of complete_analysis_stage events in order. -/
def runStages (o : WorkflowOrchestrator) : List StageOp → WorkflowOrchestrator
  | [] => o
  | op :: ops =>
    runStages (complete_analysis_stage o op.proposal_id op.stage op.success op.data) ops

/-- The progress percentages the orchestrator ever assigns. -/
def progressOK (q : ℚ) : Prop := q = 10 ∨ q = 40 ∨ q = 70 ∨ q = 100

end Coordination

namespace Voter

/-- SentimentOutput model of voter_agent.py. -/
structure SentimentOutput where
  user_id : String
  proposal_id : String
  sentiment_score : ℚ
  influence_level : String
  confidence : ℚ
deriving DecidableEq

/-- VotePrediction model of voter_agent.py; the reasoning field is a
human-readable formatted string assembled from the other fields and is
not modelled. -/
structure VotePrediction where
  user_id : String
  proposal_id : String
  stance : String
  confidence : ℚ
deriving DecidableEq

/-- The vote_counts dictionary with its three fixed keys For, Against
and Neutral. -/
structure VoteBreakdown where
  For : ℕ
  Against : ℕ
  Neutral : ℕ
deriving DecidableEq

/-- ProposalResponse model of voter_agent.py. -/
structure ProposalResponse where
  proposal_id : String
  prediction : String
  confidence : ℚ
  vote_breakdown : VoteBreakdown
  key_influencers : List String
  risk_factors : List String
deriving DecidableEq

/-- State of VoterKnowledgeGraph: the keyed sub-dictionaries of self.kg
that the predictor reads or writes.  proposal_topics and voting_patterns
are declared in the source but never used. -/
structure VoterKnowledgeGraph where
  sentiments : String × String → Option SentimentOutput
  votes : String × String → Option String
  follows : String → Option (List String)
  predictions : String × String → Option VotePrediction
  user_influence : String → Option ℚ

/-- VoterKnowledgeGraph.get_user_influence: stored influence, default
0.2 for unknown users. -/
def get_user_influence (kg : VoterKnowledgeGraph) (user_id : String) : ℚ :=
  (kg.user_influence user_id).getD (2/10)

/-- VoterKnowledgeGraph.get_social_connections: stored follow list,
default empty. -/
def get_social_connections (kg : VoterKnowledgeGraph) (user_id : String) : List String :=
  (kg.follows user_id).getD []

/-- The social-influence loop of VotingPredictor.predict_user_vote:
folds over the follow list, weighting each recorded vote of a connection
on the proposal by (plus or minus one) times the connection influence
times 0.3, and collecting the votes seen. -/
def social_influence (kg : VoterKnowledgeGraph) (user_id proposal_id : String) :
    ℚ × List String :=
  (get_social_connections kg user_id).foldl
    (fun acc connection =>
      match kg.votes (connection, proposal_id) with
      | some connection_vote =>
        let connection_influence := get_user_influence kg connection
        let vote_weight : ℚ :=
          if connection_vote = "For" then 1
          else if connection_vote = "Against" then -1
          else 0
        (acc.1 + vote_weight * connection_influence * (3/10), acc.2 ++ [connection_vote])
      | none => acc)
    (0, [])

/-- VotingPredictor.predict_user_vote: combines the stored sentiment
score (default 0) with the social influence score, thresholds the total
into a stance, and caps the confidence at 1. -/
def predict_user_vote (kg : VoterKnowledgeGraph) (user_id proposal_id : String) :
    VotePrediction :=
  let sentiment_score : ℚ :=
    match kg.sentiments (user_id, proposal_id) with
    | some s => s.sentiment_score
    | none => 0
  let user_influence := get_user_influence kg user_id
  let social_influence_score := (social_influence kg user_id proposal_id).1
  let total_score := sentiment_score * (6/10) + social_influence_score * (4/10)
  let stance :=
    if total_score > 2/10 then "For"
    else if total_score < -(2/10) then "Against"
    else "Neutral"
  let confidence := min (|total_score| + user_influence * (2/10)) 1
  { user_id := user_id
    proposal_id := proposal_id
    stance := stance
    confidence := confidence }

/-- VotingPredictor.calculate_voting_outcome: predicts every user in
order (storing each prediction into the knowledge graph), accumulates an
influence-weighted score and the vote counts, thresholds the outcome
against one tenth of the total voting power, picks the three most
influential users, collects risk factors, and caps the overall
confidence at 1 with the zero-division guard max(total power, 1). -/
def calculate_voting_outcome (kg : VoterKnowledgeGraph) (proposal_id : String)
    (user_list : List String) : VoterKnowledgeGraph × ProposalResponse :=
  let kgpreds := user_list.foldl
    (fun (acc : VoterKnowledgeGraph × List VotePrediction) user_id =>
      let prediction := predict_user_vote acc.1 user_id proposal_id
      ({ acc.1 with predictions := fun key =>
           if key = (user_id, proposal_id) then some prediction else acc.1.predictions key },
       acc.2 ++ [prediction]))
    (kg, [])
  let kg2 := kgpreds.1
  let predictions := kgpreds.2
  let wv := predictions.foldl
    (fun (acc : ℚ × VoteBreakdown) pred =>
      let user_influence := get_user_influence kg2 pred.user_id
      let vote_weight := pred.confidence * user_influence
      if pred.stance = "For" then
        (acc.1 + vote_weight, { acc.2 with For := acc.2.For + 1 })
      else if pred.stance = "Against" then
        (acc.1 - vote_weight, { acc.2 with Against := acc.2.Against + 1 })
      else
        (acc.1, { acc.2 with Neutral := acc.2.Neutral + 1 }))
    (0, ⟨0, 0, 0⟩)
  let weighted_score := wv.1
  let vote_counts := wv.2
  let total_voting_power := (user_list.map (fun uid => get_user_influence kg2 uid)).sum
  let confidence_threshold := total_voting_power * (1/10)
  let outcome :=
    if weighted_score > confidence_threshold then "Pass"
    else if weighted_score < -confidence_threshold then "Fail"
    else "Uncertain"
  let key_influencers :=
    (user_list.mergeSort
      (fun a b => decide (get_user_influence kg2 b ≤ get_user_influence kg2 a))).take 3
  let risk_factors :=
    (if (vote_counts.Neutral : ℚ) > (user_list.length : ℚ) * (3/10)
     then ["High voter apathy"] else []) ++
    (if |(vote_counts.For : ℤ) - (vote_counts.Against : ℤ)| ≤ 2
     then ["Very close margin"] else []) ++
    (if user_list.length < 5 then ["Small sample size"] else [])
  let overall_confidence := min (|weighted_score| / max total_voting_power 1) 1
  (kg2,
   { proposal_id := proposal_id
     prediction := outcome
     confidence := overall_confidence
     vote_breakdown := vote_counts
     key_influencers := key_influencers
     risk_factors := risk_factors })

end Voter

namespace Backend

/-- VoteChoice enumeration of schema.py and models.py. -/
inductive VoteChoice where
  | voteFor
  | against
  | abstain
deriving DecidableEq

/-- VoteCreate request schema of schema.py. -/
structure VoteCreate where
  choice : VoteChoice
  voting_power : ℤ
  voter_member_id : ℤ
deriving DecidableEq

/-- A persisted row of the votes table (models.py Vote); the id and
cast_at columns are database-generated and not modelled. -/
structure Vote where
  proposal_id : ℤ
  voter_member_id : ℤ
  choice : VoteChoice
  voting_power : ℤ
deriving DecidableEq

/-- The slice of the relational state that cast_vote_on_proposal reads
and writes: which member ids and proposal ids exist, and the votes
table. -/
structure Database where
  members : List ℤ
  proposals : List ℤ
  votes : List Vote

/-- The cast_vote_on_proposal endpoint of main.py: checks that the
proposal and the voter exist, rejects a second vote for the same
(proposal, voter) pair, and only then appends the new vote and commits.
Raising an HTTPException is modelled as returning the error detail
together with the unchanged database. -/
def cast_vote_on_proposal (db : Database) (proposal_id : ℤ) (vote : VoteCreate) :
    Database × Except String Vote :=
  if db.proposals.contains proposal_id = false then
    (db, Except.error "Proposal not found.")
  else if db.members.contains vote.voter_member_id = false then
    (db, Except.error "Voter (DAO Member) not found.")
  else if (db.votes.find? fun v =>
      v.proposal_id == proposal_id && v.voter_member_id == vote.voter_member_id).isSome then
    (db, Except.error "Member has already voted on this proposal.")
  else
    let new_vote : Vote :=
      { proposal_id := proposal_id
        voter_member_id := vote.voter_member_id
        choice := vote.choice
        voting_power := vote.voting_power }
    ({ db with votes := db.votes ++ [new_vote] }, Except.ok new_vote)

/-- Uniqueness invariant of the votes table: no two rows share the same
(proposal, voter) pair, matching the UniqueConstraint of models.py. -/
def votesUnique (votes : List Vote) : Prop :=
  votes.Pairwise fun v1 v2 =>
    ¬(v1.proposal_id = v2.proposal_id ∧ v1.voter_member_id = v2.voter_member_id)

end Backend

namespace Coordination

/-- Orchestrator with no workflows, as constructed at module load. -/
def emptyOrch : WorkflowOrchestrator :=
  { workflows := fun _ => none
    analysis_results := fun _ => none
    pending_responses := fun _ => none }

/-- A concrete submission used by the concrete scenarios. -/
def sampleSubmission : ProposalSubmission :=
  { proposal_id := "p1"
    title := "DeFi Integration"
    description := "Fund 50 ETH for yield farming"
    requested_amount := 50
    submitter := "alice" }

/-- A concrete stage payload with all defaulted fields. -/
def sampleDict : Dict := {}

/-- State right after starting the sample workflow. -/
def startedOrch : WorkflowOrchestrator := (start_workflow emptyOrch sampleSubmission).1

/-- State after the first two stages completed successfully in order:
progress 70, current stage execution_planning, proposal_analysis flag
already true. -/
def inOrder70 : WorkflowOrchestrator :=
  complete_analysis_stage
    (complete_analysis_stage startedOrch "p1" "proposal_analysis" true sampleDict)
    "p1" "sentiment_analysis" true sampleDict

/-- State after a duplicate success for the already-complete
proposal_analysis stage is delivered to inOrder70. -/
def replayed40 : WorkflowOrchestrator :=
  complete_analysis_stage inOrder70 "p1" "proposal_analysis" true sampleDict

/-- The workflow record stored for p1 in inOrder70. -/
def workflow70 : WorkflowStatus :=
  { proposal_id := "p1"
    current_stage := "execution_planning"
    analysis_complete := true
    sentiment_analysis_complete := true
    progress_percentage := 70 }

/-- Aggregated analysis with the three slots populated as in the C3
scenario: compliant, sentiment confidence 0.9, safe execution, and no
source of risk flags. -/
def filledAnalysis : ComprehensiveAnalysis :=
  { proposal_id := "p1"
    proposal_analysis := some { compliance := true }
    sentiment_prediction := some { confidence := 9/10 }
    execution_plan := some { is_safe := true }
    final_recommendation := "Analysis in progress..."
    confidence_score := 0
    risk_assessment := "Unknown" }

/-- Orchestrator holding filledAnalysis under id p1. -/
def filledOrch : WorkflowOrchestrator :=
  { workflows := fun _ => none
    analysis_results := fun q => if q = "p1" then some filledAnalysis else none
    pending_responses := fun _ => none }

end Coordination

namespace Voter

/-- Knowledge graph for the C4 scenario: one stored sentiment of 0.5 for
user u on proposal p, self influence 0.8, and no recorded follows. -/
def sampleKG : VoterKnowledgeGraph :=
  { sentiments := fun k =>
      if k = ("u", "p") then
        some { user_id := "u"
               proposal_id := "p"
               sentiment_score := 1/2
               influence_level := "medium"
               confidence := 1 }
      else none
    votes := fun _ => none
    follows := fun _ => none
    predictions := fun _ => none
    user_influence := fun q => if q = "u" then some (4/5) else none }

end Voter

namespace Backend

/-- A database with one member, one proposal, and one vote already cast
by member 1 on proposal 1. -/
def sampleDB : Database :=
  { members := [1]
    proposals := [1]
    votes := [{ proposal_id := 1, voter_member_id := 1,
                choice := VoteChoice.voteFor, voting_power := 10 }] }

/-- A second cast by member 1 on proposal 1, used to exercise the
duplicate-vote rejection. -/
def duplicateVote : VoteCreate :=
  { choice := VoteChoice.against, voting_power := 10, voter_member_id := 1 }

end Backend

namespace Coordination

lemma setKey_self (m : String → Option α) (k : String) (v : α) :
    setKey m k v k = some v := by
  simp [setKey]

lemma generate_preserves_workflows (o : WorkflowOrchestrator) (pid : String) :
    (generate_final_recommendation o pid).workflows = o.workflows := by
  unfold generate_final_recommendation
  cases o.analysis_results pid <;> rfl

lemma generate_preserves_pending (o : WorkflowOrchestrator) (pid : String) :
    (generate_final_recommendation o pid).pending_responses = o.pending_responses := by
  unfold generate_final_recommendation
  cases o.analysis_results pid <;> rfl

lemma start_workflow_lookup (o : WorkflowOrchestrator) (p : ProposalSubmission) :
    (start_workflow o p).1.workflows p.proposal_id =
      some { proposal_id := p.proposal_id
             current_stage := "proposal_analysis"
             progress_percentage := 10 } := by
  simp [start_workflow, setKey]

lemma complete_pa_success (o : WorkflowOrchestrator) (pid : String) (d : Dict)
    (w : WorkflowStatus) (hw : o.workflows pid = some w) :
    (complete_analysis_stage o pid "proposal_analysis" true d).workflows pid =
      some ({ w with
              analysis_complete := true
              progress_percentage := 40
              current_stage := "sentiment_analysis" }) ∧
    (complete_analysis_stage o pid "proposal_analysis" true d).analysis_results pid =
      (o.analysis_results pid).map (fun a => { a with proposal_analysis := some d }) := by
  simp [complete_analysis_stage, hw, setKey, mapKey]

lemma complete_sa_success (o : WorkflowOrchestrator) (pid : String) (d : Dict)
    (w : WorkflowStatus) (hw : o.workflows pid = some w) :
    (complete_analysis_stage o pid "sentiment_analysis" true d).workflows pid =
      some ({ w with
              sentiment_analysis_complete := true
              progress_percentage := 70
              current_stage := "execution_planning" }) := by
  simp [complete_analysis_stage, hw, setKey]

lemma complete_ep_success (o : WorkflowOrchestrator) (pid : String) (d : Dict)
    (w : WorkflowStatus) (hw : o.workflows pid = some w) :
    (complete_analysis_stage o pid "execution_planning" true d).workflows pid =
      some ({ w with
              execution_plan_ready := true
              progress_percentage := 100
              current_stage := "completed" }) := by
  simp [complete_analysis_stage, hw, generate_preserves_workflows, setKey]

end Coordination

namespace Coordination

lemma setKey_lookup {α : Type} (m : String → Option α) (k q : String) (v w : α)
    (h : setKey m k v q = some w) : (q = k ∧ w = v) ∨ m q = some w := by
  unfold setKey at h
  by_cases hq : q = k
  · rw [if_pos hq] at h
    exact Or.inl ⟨hq, (Option.some.inj h).symm⟩
  · rw [if_neg hq] at h
    exact Or.inr h

lemma complete_progress_source (o : WorkflowOrchestrator) (pid stage : String)
    (success : Bool) (d : Dict) (q : String) (w2 : WorkflowStatus)
    (h : (complete_analysis_stage o pid stage success d).workflows q = some w2) :
    o.workflows q = some w2 ∨
    w2.progress_percentage = 40 ∨ w2.progress_percentage = 70 ∨
    w2.progress_percentage = 100 ∨
    ∃ w, o.workflows q = some w ∧ w2.progress_percentage = w.progress_percentage := by
  unfold complete_analysis_stage at h
  rcases hw : o.workflows pid with _ | w
  · rw [hw] at h
    exact Or.inl h
  rw [hw] at h
  dsimp only at h
  by_cases h1 : stage = "proposal_analysis"
  · rw [if_pos h1] at h
    cases success with
    | true =>
      rw [if_pos rfl] at h
      rcases setKey_lookup _ _ _ _ _ h with ⟨hq, rfl⟩ | h2
      · exact Or.inr (Or.inl rfl)
      · exact Or.inl h2
    | false =>
      simp only [Bool.false_eq_true, if_false] at h
      rcases setKey_lookup _ _ _ _ _ h with ⟨hq, rfl⟩ | h2
      · exact Or.inr (Or.inr (Or.inr (Or.inr ⟨w, hq ▸ hw, rfl⟩)))
      · exact Or.inl h2
  rw [if_neg h1] at h
  by_cases h2 : stage = "sentiment_analysis"
  · rw [if_pos h2] at h
    cases success with
    | true =>
      rw [if_pos rfl] at h
      rcases setKey_lookup _ _ _ _ _ h with ⟨hq, rfl⟩ | h3
      · exact Or.inr (Or.inr (Or.inl rfl))
      · exact Or.inl h3
    | false =>
      simp only [Bool.false_eq_true, if_false] at h
      rcases setKey_lookup _ _ _ _ _ h with ⟨hq, rfl⟩ | h3
      · exact Or.inr (Or.inr (Or.inr (Or.inr ⟨w, hq ▸ hw, rfl⟩)))
      · exact Or.inl h3
  rw [if_neg h2] at h
  by_cases h3 : stage = "execution_planning"
  · rw [if_pos h3] at h
    cases success with
    | true =>
      rw [if_pos rfl] at h
      rw [generate_preserves_workflows] at h
      dsimp only at h
      rcases setKey_lookup _ _ _ _ _ h with ⟨hq, rfl⟩ | h4
      · exact Or.inr (Or.inr (Or.inr (Or.inl rfl)))
      · exact Or.inl h4
    | false =>
      simp only [Bool.false_eq_true, if_false] at h
      rcases setKey_lookup _ _ _ _ _ h with ⟨hq, rfl⟩ | h4
      · exact Or.inr (Or.inr (Or.inr (Or.inr ⟨w, hq ▸ hw, rfl⟩)))
      · exact Or.inl h4
  rw [if_neg h3] at h
  exact Or.inl h

lemma runStages_progressOK (ops : List StageOp) (o : WorkflowOrchestrator) (q : String)
    (hInv : ∀ w, o.workflows q = some w → progressOK w.progress_percentage) :
    ∀ w, (runStages o ops).workflows q = some w → progressOK w.progress_percentage := by
  induction ops generalizing o with
  | nil => exact hInv
  | cons op ops ih =>
    intro w hw
    refine ih _ ?_ w hw
    intro w2 h2
    rcases complete_progress_source o op.proposal_id op.stage op.success op.data q w2 h2 with
      h | h | h | h | ⟨w0, hw0, hp⟩
    · exact hInv w2 h
    · exact Or.inr (Or.inl h)
    · exact Or.inr (Or.inr (Or.inl h))
    · exact Or.inr (Or.inr (Or.inr h))
    · rw [hp]
      exact hInv w0 hw0

end Coordination

namespace Coordination

/-- State after the sample workflow completed proposal_analysis only:
progress 40, current stage sentiment_analysis. -/
def progressed40 : WorkflowOrchestrator :=
  complete_analysis_stage startedOrch "p1" "proposal_analysis" true sampleDict

/-- State after start_workflow is called a second time for p1 on top of
progressed40. -/
def restarted : WorkflowOrchestrator := (start_workflow progressed40 sampleSubmission).1

/-- State after a success=false completion for proposal_analysis is
delivered to the freshly started sample workflow. -/
def failedStage : WorkflowOrchestrator :=
  complete_analysis_stage startedOrch "p1" "proposal_analysis" false sampleDict

end Coordination

section ClaimTheorems

open Coordination

/-- C1: the claim says a success completion for an already-complete stage
is a no-op.  Counterexample: after the sample workflow completed
proposal_analysis and sentiment_analysis in order (progress 70, stage
execution_planning, proposal_analysis flag already true), delivering a
duplicate success for proposal_analysis changes the state: progress drops
to 40 and current stage moves back to sentiment_analysis. -/
theorem claim_C1_counterexample :
    (inOrder70.workflows "p1").map WorkflowStatus.analysis_complete = some true ∧
    (inOrder70.workflows "p1").map WorkflowStatus.progress_percentage = some 70 ∧
    (inOrder70.workflows "p1").map WorkflowStatus.current_stage
      = some "execution_planning" ∧
    ((complete_analysis_stage inOrder70 "p1" "proposal_analysis" true
        sampleDict).workflows "p1").map WorkflowStatus.progress_percentage = some 40 ∧
    ((complete_analysis_stage inOrder70 "p1" "proposal_analysis" true
        sampleDict).workflows "p1").map WorkflowStatus.current_stage
      = some "sentiment_analysis" := by
  decide

/-- C1 (amended): a success completion for the proposal_analysis stage of
an existing workflow is reprocessed even when that stage is already
marked complete: it re-sets progress to 40 and current stage to
sentiment_analysis (rewinding a more advanced workflow) and overwrites
the stored proposal_analysis slot with the new payload. -/
theorem claim_C1_amended (o : WorkflowOrchestrator) (pid : String) (d : Dict)
    (w : WorkflowStatus) (hw : o.workflows pid = some w)
    (_hdone : w.analysis_complete = true) :
    (complete_analysis_stage o pid "proposal_analysis" true d).workflows pid =
      some ({ w with
              analysis_complete := true
              progress_percentage := 40
              current_stage := "sentiment_analysis" }) ∧
    (complete_analysis_stage o pid "proposal_analysis" true d).analysis_results pid =
      (o.analysis_results pid).map (fun a => { a with proposal_analysis := some d }) :=
  complete_pa_success o pid d w hw

/-- Witness for C1 (amended) at the concrete replay scenario. -/
theorem claim_C1_amended_witness :
    (complete_analysis_stage inOrder70 "p1" "proposal_analysis" true
        sampleDict).workflows "p1" =
      some ({ workflow70 with
              analysis_complete := true
              progress_percentage := 40
              current_stage := "sentiment_analysis" }) :=
  (claim_C1_amended inOrder70 "p1" sampleDict workflow70 (by decide) rfl).1

/-- C2: the claim says progress never decreases across any operation.
Counterexample: progress is 70 after the in-order completions but drops
to 40 when a duplicate proposal_analysis success is delivered. -/
theorem claim_C2_counterexample :
    (inOrder70.workflows "p1").map WorkflowStatus.progress_percentage = some 70 ∧
    ((complete_analysis_stage inOrder70 "p1" "proposal_analysis" true
        sampleDict).workflows "p1").map WorkflowStatus.progress_percentage = some 40 ∧
    (40 : ℚ) < 70 := by
  decide

/-- C2 (amended): after start_workflow the progress of the started
workflow is 10, the in-order successful completions take it through
exactly 40, 70, 100, and under any sequence of completion events it only
ever takes values among 10, 40, 70, 100; it is not monotone, since a
duplicated success for an already-passed stage rewinds it to that
stage's milestone. -/
theorem claim_C2_amended (o : WorkflowOrchestrator) (p : ProposalSubmission)
    (d1 d2 d3 : Dict) (ops : List StageOp) (w : WorkflowStatus)
    (hw : (runStages (start_workflow o p).1 ops).workflows p.proposal_id = some w) :
    (((start_workflow o p).1.workflows p.proposal_id).map
        WorkflowStatus.progress_percentage = some 10) ∧
    (((complete_analysis_stage (start_workflow o p).1 p.proposal_id
          "proposal_analysis" true d1).workflows p.proposal_id).map
        WorkflowStatus.progress_percentage = some 40) ∧
    (((complete_analysis_stage
          (complete_analysis_stage (start_workflow o p).1 p.proposal_id
            "proposal_analysis" true d1)
          p.proposal_id "sentiment_analysis" true d2).workflows p.proposal_id).map
        WorkflowStatus.progress_percentage = some 70) ∧
    (((complete_analysis_stage
          (complete_analysis_stage
            (complete_analysis_stage (start_workflow o p).1 p.proposal_id
              "proposal_analysis" true d1)
            p.proposal_id "sentiment_analysis" true d2)
          p.proposal_id "execution_planning" true d3).workflows p.proposal_id).map
        WorkflowStatus.progress_percentage = some 100) ∧
    progressOK w.progress_percentage := by
  have h0 := start_workflow_lookup o p
  have h1 := (complete_pa_success (start_workflow o p).1 p.proposal_id d1 _ h0).1
  have h2 := complete_sa_success _ p.proposal_id d2 _ h1
  have h3 := complete_ep_success _ p.proposal_id d3 _ h2
  refine ⟨by rw [h0]; rfl, by rw [h1]; rfl, by rw [h2]; rfl, by rw [h3]; rfl, ?_⟩
  refine runStages_progressOK ops _ p.proposal_id ?_ w hw
  intro w0 hw0
  rw [h0] at hw0
  obtain rfl : _ = w0 := Option.some.inj hw0
  exact Or.inl rfl

/-- Witness for C2 (amended) with the empty event sequence on the sample
submission. -/
theorem claim_C2_amended_witness :
    progressOK
      (WorkflowStatus.progress_percentage
        { proposal_id := "p1"
          current_stage := "proposal_analysis"
          progress_percentage := 10 }) :=
  (claim_C2_amended emptyOrch sampleSubmission sampleDict sampleDict sampleDict []
    { proposal_id := "p1"
      current_stage := "proposal_analysis"
      progress_percentage := 10 }
    (by decide)).2.2.2.2

end ClaimTheorems

section ClaimTheorems2

open Coordination

/-- C5: the claim says a success=false completion appends a descriptive
error to the workflow's error list.  Counterexample: delivering a
proposal_analysis failure to the freshly started sample workflow leaves
the error list empty; only the completion flag is written.  The
remaining parts of the claim (staying in the current stage, no terminal
error transition) do hold. -/
theorem claim_C5_counterexample :
    (failedStage.workflows "p1").map WorkflowStatus.errors = some [] ∧
    (failedStage.workflows "p1").map WorkflowStatus.current_stage
      = some "proposal_analysis" ∧
    (failedStage.workflows "p1").map WorkflowStatus.progress_percentage = some 10 := by
  decide

/-- C5 (amended): a success=false completion for an existing workflow
appends nothing to the error list and changes neither the current stage
nor the progress; the workflow is not transitioned to any terminal error
state, for every stage string. -/
theorem claim_C5_amended (o : WorkflowOrchestrator) (pid stage : String) (d : Dict)
    (w : WorkflowStatus) (hw : o.workflows pid = some w) :
    ((complete_analysis_stage o pid stage false d).workflows pid).map
      WorkflowStatus.errors = some w.errors ∧
    ((complete_analysis_stage o pid stage false d).workflows pid).map
      WorkflowStatus.current_stage = some w.current_stage ∧
    ((complete_analysis_stage o pid stage false d).workflows pid).map
      WorkflowStatus.progress_percentage = some w.progress_percentage := by
  by_cases h1 : stage = "proposal_analysis"
  · simp [complete_analysis_stage, hw, setKey, h1]
  by_cases h2 : stage = "sentiment_analysis"
  · simp [complete_analysis_stage, hw, setKey, h1, h2]
  by_cases h3 : stage = "execution_planning"
  · simp [complete_analysis_stage, hw, setKey, h1, h2, h3]
  simp [complete_analysis_stage, hw, h1, h2, h3]

/-- Witness for C5 (amended) at the started sample workflow. -/
theorem claim_C5_amended_witness :
    ((complete_analysis_stage startedOrch "p1" "proposal_analysis" false
        sampleDict).workflows "p1").map WorkflowStatus.errors = some [] :=
  (claim_C5_amended startedOrch "p1" "proposal_analysis" sampleDict
    { proposal_id := "p1"
      current_stage := "proposal_analysis"
      progress_percentage := 10 }
    (by decide)).1

/-- C6: the claim says start_workflow fails exactly when a workflow with
the same identifier is active, and does not overwrite it.
Counterexample: after the sample workflow reached progress 40, a second
start_workflow for the same id succeeds and silently resets the
workflow to progress 10 with all completion flags cleared. -/
theorem claim_C6_counterexample :
    (progressed40.workflows "p1").map WorkflowStatus.progress_percentage = some 40 ∧
    (progressed40.workflows "p1").map WorkflowStatus.analysis_complete = some true ∧
    (restarted.workflows "p1").map WorkflowStatus.progress_percentage = some 10 ∧
    (restarted.workflows "p1").map WorkflowStatus.analysis_complete = some false ∧
    (start_workflow progressed40 sampleSubmission).2.progress_percentage = 10 := by
  decide

/-- C6 (amended): start_workflow never fails; for every prior state,
including one where the same identifier already has an active workflow,
it overwrites the stored workflow with a fresh status at stage
proposal_analysis and progress 10, resets the stored aggregated analysis
to the placeholder, and returns the fresh status. -/
theorem claim_C6_amended (o : WorkflowOrchestrator) (p : ProposalSubmission) :
    (start_workflow o p).1.workflows p.proposal_id =
      some ({ proposal_id := p.proposal_id
              current_stage := "proposal_analysis"
              progress_percentage := 10 }) ∧
    (start_workflow o p).1.analysis_results p.proposal_id =
      some ({ proposal_id := p.proposal_id
              final_recommendation := "Analysis in progress..."
              confidence_score := 0
              risk_assessment := "Unknown" }) ∧
    (start_workflow o p).2 =
      { proposal_id := p.proposal_id
        current_stage := "proposal_analysis"
        progress_percentage := 10 } := by
  refine ⟨start_workflow_lookup o p, ?_, rfl⟩
  simp [start_workflow, setKey]

/-- C9: for an unknown workflow identifier the status-request handler
returns the placeholder analysis with confidence 0 and risk Unknown
instead of raising, and for a known identifier it returns the stored,
possibly partially populated, snapshot unchanged. -/
theorem claim_C9 (o : WorkflowOrchestrator) (pid : String) :
    (o.analysis_results pid = none →
      handle_status_request o pid =
        { proposal_id := pid
          final_recommendation := "Analysis not yet available"
          confidence_score := 0
          risk_assessment := "Unknown" }) ∧
    (∀ a, o.analysis_results pid = some a → handle_status_request o pid = a) := by
  constructor
  · intro h
    simp [handle_status_request, h]
  · intro a h
    simp [handle_status_request, h]

/-- Witness for C9 at the empty orchestrator and an unknown id. -/
theorem claim_C9_witness :
    handle_status_request emptyOrch "unknown" =
      { proposal_id := "unknown"
        final_recommendation := "Analysis not yet available"
        confidence_score := 0
        risk_assessment := "Unknown" } :=
  (claim_C9 emptyOrch "unknown").1 rfl

/-- C10: a success=false completion for a recognized stage of a known
workflow writes false into exactly that stage's completion flag and
changes nothing else: the other flags, progress, current stage, error
and warning lists, every other workflow, every stored analysis and all
pending flags are untouched. -/
theorem claim_C10 (o : WorkflowOrchestrator) (pid stage : String) (d : Dict)
    (w : WorkflowStatus) (hw : o.workflows pid = some w)
    (hstage : stage = "proposal_analysis" ∨ stage = "sentiment_analysis" ∨
      stage = "execution_planning") :
    (complete_analysis_stage o pid stage false d).workflows pid =
      some ({ w with
              analysis_complete :=
                if stage = "proposal_analysis" then false else w.analysis_complete
              sentiment_analysis_complete :=
                if stage = "sentiment_analysis" then false
                else w.sentiment_analysis_complete
              execution_plan_ready :=
                if stage = "execution_planning" then false
                else w.execution_plan_ready }) ∧
    (∀ q, q ≠ pid →
      (complete_analysis_stage o pid stage false d).workflows q = o.workflows q) ∧
    (complete_analysis_stage o pid stage false d).analysis_results =
      o.analysis_results ∧
    (complete_analysis_stage o pid stage false d).pending_responses =
      o.pending_responses := by
  rcases hstage with h | h | h <;> subst h <;>
    exact ⟨by simp [complete_analysis_stage, hw, setKey],
      fun q hq => by simp [complete_analysis_stage, hw, setKey, hq],
      by simp [complete_analysis_stage, hw],
      by simp [complete_analysis_stage, hw]⟩

/-- Witness for C10: the failure completion on the started sample
workflow clears only the analysis_complete flag. -/
theorem claim_C10_witness :
    (complete_analysis_stage startedOrch "p1" "proposal_analysis" false
        sampleDict).analysis_results = startedOrch.analysis_results :=
  (claim_C10 startedOrch "p1" "proposal_analysis" sampleDict
    { proposal_id := "p1"
      current_stage := "proposal_analysis"
      progress_percentage := 10 }
    (by decide) (Or.inl rfl)).2.2.1

end ClaimTheorems2

namespace Coordination

/-- Concrete compliant proposal-analysis payload. -/
def compliantDict : Dict := { compliance := true }

/-- Concrete sentiment payload with confidence 0.9. -/
def sentimentDict : Dict := { confidence := 9/10 }

/-- Concrete safe execution payload. -/
def safeDict : Dict := { is_safe := true }

lemma generate_zero_scores (o : WorkflowOrchestrator) (pid : String)
    (a : ComprehensiveAnalysis) (ha : o.analysis_results pid = some a)
    (h1 : a.proposal_analysis = none) (h2 : a.sentiment_prediction = none)
    (h3 : a.execution_plan = none) :
    ((generate_final_recommendation o pid).analysis_results pid).map
      ComprehensiveAnalysis.confidence_score = some 0 := by
  simp [generate_final_recommendation, ha, h1, h2, h3, setKey]

lemma generate_mean_formula (o : WorkflowOrchestrator) (pid : String)
    (a : ComprehensiveAnalysis) (d1 d2 d3 : Dict)
    (ha : o.analysis_results pid = some a)
    (h1 : a.proposal_analysis = some d1) (h2 : a.sentiment_prediction = some d2)
    (h3 : a.execution_plan = some d3) :
    ((generate_final_recommendation o pid).analysis_results pid).map
      ComprehensiveAnalysis.confidence_score =
      some (((if d1.compliance then (8 : ℚ)/10 else 2/10) + d2.confidence +
             (if d3.is_safe then (7 : ℚ)/10 else 3/10)) / 3) := by
  by_cases hr : d1.overall_risk = "HIGH" <;>
    by_cases hp : d2.prediction = "Fail" <;>
      cases hc : d1.compliance <;>
        cases hs : d3.is_safe <;>
          simp [generate_final_recommendation, ha, h1, h2, h3, hr, hp, hc, hs, setKey] <;>
            ring_nf

lemma generate_approve_low (o : WorkflowOrchestrator) (pid : String)
    (a : ComprehensiveAnalysis) (d1 d2 d3 : Dict)
    (ha : o.analysis_results pid = some a)
    (h1 : a.proposal_analysis = some d1) (hc : d1.compliance = true)
    (hr : d1.overall_risk ≠ "HIGH")
    (h2 : a.sentiment_prediction = some d2) (hconf : d2.confidence = 9/10)
    (hp : d2.prediction ≠ "Fail") (hrf : d2.risk_factors = [])
    (h3 : a.execution_plan = some d3) (hs : d3.is_safe = true) :
    (generate_final_recommendation o pid).analysis_results pid =
      some ({ a with
              final_recommendation := "APPROVE - High confidence, low risk"
              confidence_score := 4/5
              risk_assessment := "LOW" }) := by
  simp [generate_final_recommendation, ha, h1, h2, h3, hc, hr, hp, hrf, hconf, hs, setKey]
  norm_num

end Coordination

section ClaimTheorems3

open Coordination

/-- C3: final-recommendation synthesis takes the arithmetic mean of the
contributed confidence values (compliance contributes 0.8 if compliant
else 0.2, the sentiment result contributes its own confidence, execution
contributes 0.7 if safe else 0.3), returns confidence 0 when no stage
contributed, and on the concrete scenario of the claim (compliant,
sentiment confidence 0.9 with no risk factors and no Fail prediction, no
HIGH financial risk, safe execution) produces confidence 0.8 = 4/5, the
APPROVE recommendation of the first decision-table row, and risk LOW. -/
theorem claim_C3 (o : WorkflowOrchestrator) (pid : String)
    (a : ComprehensiveAnalysis) (d1 d2 d3 : Dict)
    (ha : o.analysis_results pid = some a)
    (h1 : a.proposal_analysis = some d1) (hc : d1.compliance = true)
    (hr : d1.overall_risk ≠ "HIGH")
    (h2 : a.sentiment_prediction = some d2) (hconf : d2.confidence = 9/10)
    (hp : d2.prediction ≠ "Fail") (hrf : d2.risk_factors = [])
    (h3 : a.execution_plan = some d3) (hs : d3.is_safe = true) :
    ((generate_final_recommendation o pid).analysis_results pid =
      some ({ a with
              final_recommendation := "APPROVE - High confidence, low risk"
              confidence_score := 4/5
              risk_assessment := "LOW" })) ∧
    (∀ o2 pid2 a2, o2.analysis_results pid2 = some a2 →
      a2.proposal_analysis = none → a2.sentiment_prediction = none →
      a2.execution_plan = none →
      ((generate_final_recommendation o2 pid2).analysis_results pid2).map
        ComprehensiveAnalysis.confidence_score = some 0) ∧
    (∀ o3 pid3 a3 e1 e2 e3, o3.analysis_results pid3 = some a3 →
      a3.proposal_analysis = some e1 → a3.sentiment_prediction = some e2 →
      a3.execution_plan = some e3 →
      ((generate_final_recommendation o3 pid3).analysis_results pid3).map
        ComprehensiveAnalysis.confidence_score =
        some (((if e1.compliance then (8 : ℚ)/10 else 2/10) + e2.confidence +
               (if e3.is_safe then (7 : ℚ)/10 else 3/10)) / 3)) :=
  ⟨generate_approve_low o pid a d1 d2 d3 ha h1 hc hr h2 hconf hp hrf h3 hs,
   fun o2 pid2 a2 ha2 g1 g2 g3 => generate_zero_scores o2 pid2 a2 ha2 g1 g2 g3,
   fun o3 pid3 a3 e1 e2 e3 ha3 g1 g2 g3 =>
     generate_mean_formula o3 pid3 a3 e1 e2 e3 ha3 g1 g2 g3⟩

/-- Witness for C3 at the concrete filled orchestrator. -/
theorem claim_C3_witness :
    (generate_final_recommendation filledOrch "p1").analysis_results "p1" =
      some ({ filledAnalysis with
              final_recommendation := "APPROVE - High confidence, low risk"
              confidence_score := 4/5
              risk_assessment := "LOW" }) :=
  (claim_C3 filledOrch "p1" filledAnalysis compliantDict sentimentDict safeDict
    rfl rfl rfl (by decide) rfl rfl (by decide) rfl rfl rfl).1

end ClaimTheorems3

section ClaimTheorems4

open Voter

/-- C4: predict_user_vote combines total = 0.6 times the stored
sentiment (default 0) plus 0.4 times the social influence score,
thresholds the stance at plus or minus 0.2, and sets confidence to
min of the absolute total plus 0.2 times the self influence (default 0.2
for unknown users) and 1; on the concrete scenario of the claim
(sentiment 0.5, self influence 0.8, no recorded follows) the stance is
For with confidence 0.46. -/
theorem claim_C4 (kg : VoterKnowledgeGraph) (u p : String) (s : SentimentOutput)
    (hs : kg.sentiments (u, p) = some s) (hscore : s.sentiment_score = 1/2)
    (hinfl : kg.user_influence u = some (4/5)) (hf : kg.follows u = none) :
    (predict_user_vote kg u p).stance = "For" ∧
    (predict_user_vote kg u p).confidence = 46/100 ∧
    (∀ kg2 u2 p2,
      (predict_user_vote kg2 u2 p2).confidence =
        min (|(match kg2.sentiments (u2, p2) with
               | some s2 => s2.sentiment_score
               | none => 0) * (6/10) +
              (social_influence kg2 u2 p2).1 * (4/10)| +
             get_user_influence kg2 u2 * (2/10)) 1 ∧
      (predict_user_vote kg2 u2 p2).stance =
        (if ((match kg2.sentiments (u2, p2) with
              | some s2 => s2.sentiment_score
              | none => 0) * (6/10) +
             (social_influence kg2 u2 p2).1 * (4/10)) > 2/10 then "For"
         else if ((match kg2.sentiments (u2, p2) with
                   | some s2 => s2.sentiment_score
                   | none => 0) * (6/10) +
                  (social_influence kg2 u2 p2).1 * (4/10)) < -(2/10) then "Against"
         else "Neutral")) := by
  have hsoc : (social_influence kg u p).1 = 0 := by
    simp [social_influence, get_social_connections, hf]
  have hui : get_user_influence kg u = 4/5 := by
    simp [get_user_influence, hinfl]
  refine ⟨?_, ?_, fun kg2 u2 p2 => ⟨rfl, rfl⟩⟩
  · simp only [predict_user_vote, hs, hscore, hsoc, hui]
    norm_num
  · simp only [predict_user_vote, hs, hscore, hsoc, hui]
    rw [show |(1 : ℚ)/2 * (6/10) + 0 * (4/10)| = 3/10 by norm_num]
    norm_num [min_def]

/-- Witness for C4 at the concrete sample knowledge graph. -/
theorem claim_C4_witness :
    (predict_user_vote sampleKG "u" "p").stance = "For" ∧
    (predict_user_vote sampleKG "u" "p").confidence = 46/100 :=
  ⟨(claim_C4 sampleKG "u" "p"
      { user_id := "u"
        proposal_id := "p"
        sentiment_score := 1/2
        influence_level := "medium"
        confidence := 1 }
      rfl rfl rfl rfl).1,
   (claim_C4 sampleKG "u" "p"
      { user_id := "u"
        proposal_id := "p"
        sentiment_score := 1/2
        influence_level := "medium"
        confidence := 1 }
      rfl rfl rfl rfl).2.1⟩

/-- C7: calculate_voting_outcome on an empty user list returns the
Uncertain prediction with overall confidence 0, an all-zero vote
breakdown, no key influencers, and leaves the knowledge graph unchanged;
the confidence divisor is the guarded max of the total voting power and
1, so the empty list does not divide by zero. -/
theorem claim_C7 (kg : VoterKnowledgeGraph) (pid : String) :
    (calculate_voting_outcome kg pid []).2.prediction = "Uncertain" ∧
    (calculate_voting_outcome kg pid []).2.confidence = 0 ∧
    (calculate_voting_outcome kg pid []).2.vote_breakdown = ⟨0, 0, 0⟩ ∧
    (calculate_voting_outcome kg pid []).2.key_influencers = [] ∧
    (calculate_voting_outcome kg pid []).1 = kg := by
  refine ⟨?_, ?_, rfl, ?_, rfl⟩
  · simp [calculate_voting_outcome]
  · simp [calculate_voting_outcome]
  · simp [calculate_voting_outcome]

end ClaimTheorems4

namespace Backend

lemma cast_preserves_unique (db : Database) (pid : ℤ) (v : VoteCreate)
    (hu : votesUnique db.votes) :
    votesUnique (cast_vote_on_proposal db pid v).1.votes := by
  unfold cast_vote_on_proposal
  by_cases h1 : db.proposals.contains pid = false
  · rw [if_pos h1]
    exact hu
  rw [if_neg h1]
  by_cases h2 : db.members.contains v.voter_member_id = false
  · rw [if_pos h2]
    exact hu
  rw [if_neg h2]
  by_cases h3 : (db.votes.find? fun x =>
      x.proposal_id == pid && x.voter_member_id == v.voter_member_id).isSome = true
  · rw [if_pos h3]
    exact hu
  rw [if_neg h3]
  have hnone : (db.votes.find? fun x =>
      x.proposal_id == pid && x.voter_member_id == v.voter_member_id) = none := by
    rcases hfind : db.votes.find? fun x =>
        x.proposal_id == pid && x.voter_member_id == v.voter_member_id with _ | x
    · exact hfind
    · exact absurd (by rw [hfind]; rfl) h3
  have hall := List.find?_eq_none.mp hnone
  unfold votesUnique at hu ⊢
  dsimp only
  rw [List.pairwise_append]
  refine ⟨hu, by simp, ?_⟩
  intro a ha b hb
  simp only [List.mem_singleton] at hb
  subst hb
  have hnota := hall a ha
  simp only [Bool.and_eq_true, beq_iff_eq, not_and] at hnota
  rintro ⟨hpe, hve⟩
  exact hnota hpe hve

end Backend

section ClaimTheorems5

open Backend

/-- C8: when a vote by the requesting member on the target proposal
already exists, cast_vote_on_proposal returns an error and leaves the
database (in particular the stored votes) unchanged, and every call
preserves the at-most-one-vote-per-(proposal, voter) invariant of the
votes table. -/
theorem claim_C8 (db : Database) (pid : ℤ) (v : VoteCreate)
    (hdup : (db.votes.find? fun x =>
        x.proposal_id == pid && x.voter_member_id == v.voter_member_id).isSome = true) :
    (cast_vote_on_proposal db pid v).1 = db ∧
    (∀ nv, (cast_vote_on_proposal db pid v).2 ≠ Except.ok nv) ∧
    (∀ db2 pid2 v2, votesUnique db2.votes →
      votesUnique (cast_vote_on_proposal db2 pid2 v2).1.votes) := by
  refine ⟨?_, ?_, fun db2 pid2 v2 hu => cast_preserves_unique db2 pid2 v2 hu⟩
  · unfold cast_vote_on_proposal
    by_cases h1 : db.proposals.contains pid = false
    · rw [if_pos h1]
    rw [if_neg h1]
    by_cases h2 : db.members.contains v.voter_member_id = false
    · rw [if_pos h2]
    rw [if_neg h2]
    rw [if_pos hdup]
  · intro nv
    unfold cast_vote_on_proposal
    by_cases h1 : db.proposals.contains pid = false
    · rw [if_pos h1]
      simp
    rw [if_neg h1]
    by_cases h2 : db.members.contains v.voter_member_id = false
    · rw [if_pos h2]
      simp
    rw [if_neg h2]
    rw [if_pos hdup]
    simp

/-- Witness for C8: a second cast by member 1 on proposal 1 against the
sample database is rejected and the database is unchanged. -/
theorem claim_C8_witness :
    (cast_vote_on_proposal sampleDB 1 duplicateVote).1 = sampleDB :=
  (claim_C8 sampleDB 1 duplicateVote (by decide)).1

end ClaimTheorems5
